import Mathlib

set_option maxRecDepth 10000

/-!
Shallow embedding of the dogstatsd client library (DogStatsD wire-protocol
encoder).  The repository ships only the test suite of the encoder and a small
demo caller; the encoder itself (Client, formatters, composer, accountant) is
absent, so every definition below is modelled from the specification and then
validated against the concrete expectation strings of the shipped test suite
(`dogstatsdTests`, `eventTests`, `TestEvent`).
-/

/-- Modelled from the spec: the hard limit on an event's encoded text payload,
8192 bytes (8 KB).  The implementation constant `maxEventBytes` is not in the
sources; the spec fixes it to 8192. -/
def maxEventBytes : Nat := 8192

/-- The six digits after the decimal point, most significant first, of a
fraction numerator `r < 1000000`. -/
def fracDigits6 (r : Nat) : String :=
  String.mk [Nat.digitChar (r / 100000 % 10), Nat.digitChar (r / 10000 % 10),
    Nat.digitChar (r / 1000 % 10), Nat.digitChar (r / 100 % 10),
    Nat.digitChar (r / 10 % 10), Nat.digitChar (r % 10)]

/-- Modelled from the spec: fixed-point decimal rendering with exactly 6
digits after the decimal point (Go `%f` on a float64; the float value is
embedded as an exact rational, rounding half away from zero). -/
def renderFixed6 (q : Rat) : String :=
  let a := if q < 0 then -q else q
  let scaled : Nat := (a.num.natAbs * 2000000 + a.den) / (2 * a.den)
  (if q < 0 then "-" else "")
    ++ Nat.repr (scaled / 1000000) ++ "." ++ fracDigits6 (scaled % 1000000)

/-- Modelled from the spec: a Count value is a signed integer rendered in
decimal with no decimal point, negative values with a leading minus sign. -/
def renderInt (i : Int) : String :=
  (if i < 0 then "-" else "") ++ Nat.repr i.natAbs

/-- Modelled from the spec: the kind-tagged metric value (float64 for
Gauge/Histogram, int64 for Count, string for Set), embedded with exact
rationals in place of float64. -/
inductive MetricValue
  | gauge (v : Rat)
  | count (v : Int)
  | histogram (v : Rat)
  | set (v : String)
deriving DecidableEq

/-- Modelled from the spec: kind suffix `g`/`c`/`h`/`s`. -/
def kindSuffix : MetricValue → String
  | .gauge _ => "g"
  | .count _ => "c"
  | .histogram _ => "h"
  | .set _ => "s"

/-- Modelled from the spec: value rendering by kind; a Set value is a string
emitted verbatim. -/
def renderValue : MetricValue → String
  | .gauge v => renderFixed6 v
  | .count v => renderInt v
  | .histogram v => renderFixed6 v
  | .set v => v

/-- Modelled from the spec: the composed metric name is
`namespace ++ name`, plain concatenation, no separator inserted. -/
def composeName (ns name : String) : String := ns ++ name

/-- Modelled from the spec: the composed tag sequence is the call-site tags
followed by the global tags, order preserved, no deduplication. -/
def composeTags (callTags globalTags : List String) : List String :=
  callTags ++ globalTags

/-- Tags are joined by commas with no spaces. -/
def joinTags (tags : List String) : String := String.intercalate "," tags

/-- Modelled from the spec: `formatMetric` assembles
`<name>:<value>|<kindSuffix>`, then `|@<rate>` (6 decimal digits) iff the
sample rate is not 1.0, then `|#tag1,tag2,...` iff the composed tag sequence
is non-empty. -/
def formatMetric (ns : String) (globalTags : List String) (name : String)
    (value : MetricValue) (tags : List String) (sampleRate : Rat) : String :=
  composeName ns name ++ ":" ++ renderValue value ++ "|" ++ kindSuffix value
    ++ (if sampleRate ≠ 1 then "|@" ++ renderFixed6 sampleRate else "")
    ++ (if (composeTags tags globalTags).isEmpty then ""
        else "|#" ++ joinTags (composeTags tags globalTags))

/-- Modelled from the spec: event alert types (severities). -/
inductive AlertType
  | error
  | warning
  | info
  | success
deriving DecidableEq

/-- Lowercase wire name of an alert type. -/
def AlertType.render : AlertType → String
  | .error => "error"
  | .warning => "warning"
  | .info => "info"
  | .success => "success"

/-- Modelled from the spec: event priorities. -/
inductive EventPriority
  | low
  | normal
  | high
deriving DecidableEq

/-- Lowercase wire name of a priority. -/
def EventPriority.render : EventPriority → String
  | .low => "low"
  | .normal => "normal"
  | .high => "high"

/-- Modelled from the spec: event options, a structure of optional fields plus
a tag list.  `dateHappened` is carried as Unix epoch seconds. -/
structure EventOpts where
  dateHappened : Option Int := none
  priority : Option EventPriority := none
  host : Option String := none
  aggregationKey : Option String := none
  sourceTypeName : Option String := none
  alertType : Option AlertType := none
  tags : List String := []
deriving DecidableEq

/-- Modelled from the spec: the namespace with any single trailing separator
character removed (the separator in use throughout the sources is a dot,
e.g. namespace "flubber." trims to "flubber"). -/
def trimNamespace (ns : String) : String :=
  if ns.data.getLast? = some '.' then String.mk ns.data.dropLast else ns

/-- Renders one optional event field: absent fields produce nothing, a present
field is emitted as `|<label>:<value>`. -/
def optField (label : String) : Option String → String
  | none => ""
  | some v => "|" ++ label ++ ":" ++ v

/-- Modelled from the spec: final event tags start from `opts.tags`; the
severity-shortcut path appends the synthesized `<nsTrimmed>-<alertType>` tag;
every path then appends the bare trimmed-namespace tag (the namespace-as-tag
convention); global tags come last. -/
def composeEventTags (ns : String) (globalTags : List String)
    (opts : EventOpts) (shortcutPath : Bool) : List String :=
  opts.tags
    ++ (if shortcutPath then
          (match opts.alertType with
            | some a => [trimNamespace ns ++ "-" ++ a.render]
            | none => []) ++ [trimNamespace ns]
        else [trimNamespace ns])
    ++ globalTags

/-- Modelled from the spec: the event header
`_e\x7b<titleLen>,<textLen>\x7d:<namespacedTitle>|<text>`, where the two
lengths count Unicode code points of the namespaced title and of the text. -/
def eventHeader (namespacedTitle text : String) : String :=
  "_e\x7b" ++ Nat.repr namespacedTitle.length ++ ","
    ++ Nat.repr text.length ++ "\x7d:" ++ namespacedTitle ++ "|" ++ text

/-- Modelled from the spec: the optional event fields, each rendered only when
present, in the fixed order t, s, d, p, h, k. -/
def eventFields (opts : EventOpts) : String :=
  optField "t" (opts.alertType.map AlertType.render)
    ++ optField "s" opts.sourceTypeName
    ++ optField "d" (opts.dateHappened.map Int.repr)
    ++ optField "p" (opts.priority.map EventPriority.render)
    ++ optField "h" opts.host
    ++ optField "k" opts.aggregationKey

/-- Modelled from the spec: the oversize-event error message (with the
original typo "more that 8KB" kept, as pinned by the shipped test). -/
def oversizeMessage (namespacedTitle : String) : String :=
  "Event \"" ++ namespacedTitle
    ++ "\" payload is too big (more that 8KB), event discarded"

/-- Modelled from the spec: `formatEvent` validates the byte length of the
text against `maxEventBytes` and otherwise assembles header, optional fields
and the tag segment.  `shortcutPath` is true exactly on the
Warning/Error/Info/Success path. -/
def formatEvent (ns : String) (globalTags : List String) (title text : String)
    (opts : EventOpts) (shortcutPath : Bool) : Except String String :=
  let namespacedTitle := ns ++ title
  if text.utf8ByteSize > maxEventBytes then
    .error (oversizeMessage namespacedTitle)
  else
    let ts := composeEventTags ns globalTags opts shortcutPath
    .ok (eventHeader namespacedTitle text ++ eventFields opts
          ++ (if ts.isEmpty then "" else "|#" ++ joinTags ts))

/-- Modelled from the spec: the Client holds the mutable global namespace and
global tags and the (opaque, immutable) transport endpoint handle. -/
structure Client where
  globalNamespace : String
  globalTags : List String
  endpoint : Nat
deriving DecidableEq

/-- Modelled from the spec: replaces the stored namespace wholesale. -/
def Client.SetGlobalNamespace (c : Client) (p : String) : Client :=
  { c with globalNamespace := p }

/-- Modelled from the spec: replaces the stored global tags wholesale. -/
def Client.SetGlobalTags (c : Client) (tags : List String) : Client :=
  { c with globalTags := tags }

/-- Gauge: formats a gauge metric under the client's current state. -/
def Client.Gauge (c : Client) (name : String) (value : Rat)
    (tags : List String) (rate : Rat) : String :=
  formatMetric c.globalNamespace c.globalTags name (.gauge value) tags rate

/-- Count: formats a count metric under the client's current state. -/
def Client.Count (c : Client) (name : String) (value : Int)
    (tags : List String) (rate : Rat) : String :=
  formatMetric c.globalNamespace c.globalTags name (.count value) tags rate

/-- Histogram: formats a histogram metric under the client's current state. -/
def Client.Histogram (c : Client) (name : String) (value : Rat)
    (tags : List String) (rate : Rat) : String :=
  formatMetric c.globalNamespace c.globalTags name (.histogram value) tags rate

/-- Set: formats a set metric under the client's current state. -/
def Client.Set (c : Client) (name : String) (value : String)
    (tags : List String) (rate : Rat) : String :=
  formatMetric c.globalNamespace c.globalTags name (.set value) tags rate

/-- Modelled from the spec: the raw Event entry point with explicit opts;
it does not take the severity-shortcut path. -/
def Client.Event (c : Client) (title text : String) (opts : EventOpts) :
    Except String String :=
  formatEvent c.globalNamespace c.globalTags title text opts false

/-- The implicit EventOpts a severity shortcut constructs: the alert type is
fixed to the shortcut's severity and the source type name defaults to the
trimmed namespace. -/
def shortcutOpts (c : Client) (a : AlertType) (tags : List String) :
    EventOpts :=
  { alertType := some a,
    sourceTypeName := some (trimNamespace c.globalNamespace),
    tags := tags }

/-- Warning severity shortcut. -/
def Client.Warning (c : Client) (title text : String) (tags : List String) :
    Except String String :=
  formatEvent c.globalNamespace c.globalTags title text
    (shortcutOpts c .warning tags) true

/-- Error severity shortcut. -/
def Client.Error (c : Client) (title text : String) (tags : List String) :
    Except String String :=
  formatEvent c.globalNamespace c.globalTags title text
    (shortcutOpts c .error tags) true

/-- Info severity shortcut. -/
def Client.Info (c : Client) (title text : String) (tags : List String) :
    Except String String :=
  formatEvent c.globalNamespace c.globalTags title text
    (shortcutOpts c .info tags) true

/-- Success severity shortcut. -/
def Client.Success (c : Client) (title text : String) (tags : List String) :
    Except String String :=
  formatEvent c.globalNamespace c.globalTags title text
    (shortcutOpts c .success tags) true

/-- One public client operation: a configuration setter or a send. -/
inductive ClientOp
  | setGlobalNamespace (p : String)
  | setGlobalTags (tags : List String)
  | gauge (name : String) (value : Rat) (tags : List String) (rate : Rat)
  | count (name : String) (value : Int) (tags : List String) (rate : Rat)
  | histogram (name : String) (value : Rat) (tags : List String) (rate : Rat)
  | set (name : String) (value : String) (tags : List String) (rate : Rat)
  | event (title text : String) (opts : EventOpts)
  | warning (title text : String) (tags : List String)
  | error (title text : String) (tags : List String)
  | info (title text : String) (tags : List String)
  | success (title text : String) (tags : List String)

/-- The datagrams a formatting result hands to the transport: one on success,
none on failure (an oversize event is discarded, never partially sent). -/
def datagrams : Except String String → List String
  | .ok s => [s]
  | .error _ => []

/-- Whether an operation is a configuration setter (as opposed to a send). -/
def ClientOp.isConfig : ClientOp → Bool
  | .setGlobalNamespace _ => true
  | .setGlobalTags _ => true
  | _ => false

/-- Modelled from the spec: one step of the client.  Setters mutate the
client state and send nothing; send operations leave the state unchanged and
hand the formatted payload (if any) to the transport. -/
def stepClient (c : Client) : ClientOp → Client × List String
  | .setGlobalNamespace p => (c.SetGlobalNamespace p, [])
  | .setGlobalTags tags => (c.SetGlobalTags tags, [])
  | .gauge n v tags r => (c, [c.Gauge n v tags r])
  | .count n v tags r => (c, [c.Count n v tags r])
  | .histogram n v tags r => (c, [c.Histogram n v tags r])
  | .set n v tags r => (c, [c.Set n v tags r])
  | .event t x o => (c, datagrams (c.Event t x o))
  | .warning t x tags => (c, datagrams (c.Warning t x tags))
  | .error t x tags => (c, datagrams (c.Error t x tags))
  | .info t x tags => (c, datagrams (c.Info t x tags))
  | .success t x tags => (c, datagrams (c.Success t x tags))

/-- Runs a sequence of client operations, collecting all datagrams sent. -/
def runClient (c : Client) : List ClientOp → Client × List String
  | [] => (c, [])
  | op :: ops =>
    let s := stepClient c op
    let r := runClient s.1 ops
    (r.1, s.2 ++ r.2)

/-- The client state of `TestClient` rows with no global configuration. -/
def plainClient : Client := ⟨"", [], 0⟩

/-- The client state of `TestEvent`: global namespace "flubber.", no global
tags. -/
def flubberClient : Client := ⟨"flubber.", [], 0⟩

/-- The explicit full-option EventOpts of the last `eventTests` row
(date 2014-09-18 22:56:00 UTC = 1411080960 Unix seconds). -/
def fullOpts : EventOpts :=
  { dateHappened := some 1411080960,
    priority := some .normal,
    host := some "node.example.com",
    aggregationKey := some "foo",
    sourceTypeName := some "bar",
    alertType := some .success,
    tags := [] }

/-- The oversize text of `TestEvent`: `maxEventBytes + 1` bytes of "a". -/
def oversizeText : String := String.mk (List.replicate (maxEventBytes + 1) 'a')

deriving instance DecidableEq for Except

/-- The byte-size accumulator of a run of `n` ASCII "a" characters is `n`. -/
theorem utf8ByteSizeGo_replicate (n : Nat) :
    String.utf8ByteSize.go (List.replicate n 'a') = n := by
  induction n with
  | zero => rfl
  | succ n ih =>
    rw [List.replicate_succ]
    show String.utf8ByteSize.go (List.replicate n 'a') + 'a'.utf8Size = n + 1
    have ha : 'a'.utf8Size = 1 := rfl
    rw [ih, ha]

/-- A string of `n` ASCII "a" characters occupies exactly `n` bytes. -/
theorem utf8ByteSize_replicate (n : Nat) :
    (String.mk (List.replicate n 'a')).utf8ByteSize = n :=
  utf8ByteSizeGo_replicate n

/-- The oversize test text of `TestEvent` occupies 8193 bytes. -/
theorem oversizeText_utf8ByteSize : oversizeText.utf8ByteSize = 8193 :=
  utf8ByteSize_replicate 8193

/-- `Nat.digitChar` of a remainder mod 10 is a decimal digit character. -/
theorem digitChar_mod_isDigit (n : Nat) :
    (Nat.digitChar (n % 10)).isDigit = true := by
  have h10 : ∀ m, m < 10 → (Nat.digitChar m).isDigit = true := by decide
  exact h10 _ (Nat.mod_lt _ (by decide))

/-- Every character `Nat.toDigitsCore` produces in base 10 over a list of
digit characters is a digit character. -/
theorem toDigitsCore_isDigit (f : Nat) : ∀ (n : Nat) (l : List Char),
    (∀ c ∈ l, c.isDigit = true) →
    ∀ c ∈ Nat.toDigitsCore 10 f n l, c.isDigit = true := by
  induction f with
  | zero => intro n l hl; simpa [Nat.toDigitsCore] using hl
  | succ f ih =>
    intro n l hl c hc
    simp only [Nat.toDigitsCore] at hc
    by_cases h : n / 10 = 0
    · rw [if_pos h] at hc
      rcases List.mem_cons.mp hc with h1 | h2
      · rw [h1]; exact digitChar_mod_isDigit n
      · exact hl c h2
    · rw [if_neg h] at hc
      refine ih (n / 10) (Nat.digitChar (n % 10) :: l) ?_ c hc
      intro d hd
      rcases List.mem_cons.mp hd with h1 | h2
      · rw [h1]; exact digitChar_mod_isDigit n
      · exact hl d h2

/-- Every character of `Nat.repr` is a decimal digit character. -/
theorem repr_isDigit (n : Nat) : ∀ c ∈ (Nat.repr n).data, c.isDigit = true := by
  have hd : (Nat.repr n).data = Nat.toDigitsCore 10 (n + 1) n [] := rfl
  rw [hd]
  exact toDigitsCore_isDigit (n + 1) n [] (by simp)

/-- Each of the six fraction digits is a digit character. -/
theorem fracDigits6_all_isDigit (r : Nat) :
    (fracDigits6 r).data.all Char.isDigit = true := by
  simp [fracDigits6, digitChar_mod_isDigit]

/-- The fraction part always has exactly six characters. -/
theorem fracDigits6_length (r : Nat) : (fracDigits6 r).length = 6 := rfl

/-- Claim C1: every metric wire string is
`<composedName>:<renderedValue>|<kindSuffix>`, with `|@<rate>` (fixed-point,
6 digits after the decimal) appended iff the sample rate is not 1.0, and
`|#tag1,tag2,...` (comma-joined, no spaces) appended iff the composed tag
sequence is non-empty; Gauge/Histogram values render as fixed-point decimals
with exactly 6 digits after the decimal point, and the kind suffixes are
g, c, h, s.  Validated against the `dogstatsdTests` expectation strings. -/
theorem c1_metric_wire_format :
    (∀ (ns : String) (gt : List String) (name : String) (v : MetricValue)
        (tags : List String) (rate : Rat),
      formatMetric ns gt name v tags rate
        = (ns ++ name) ++ ":" ++ renderValue v ++ "|" ++ kindSuffix v
            ++ (if rate = 1 then "" else "|@" ++ renderFixed6 rate)
            ++ (if tags ++ gt = [] then ""
                else "|#" ++ String.intercalate "," (tags ++ gt)))
    ∧ (∀ v : Rat, kindSuffix (.gauge v) = "g" ∧ kindSuffix (.histogram v) = "h"
        ∧ renderValue (.gauge v) = renderFixed6 v
        ∧ renderValue (.histogram v) = renderFixed6 v)
    ∧ (∀ i : Int, kindSuffix (.count i) = "c")
    ∧ (∀ s : String, kindSuffix (.set s) = "s" ∧ renderValue (.set s) = s)
    ∧ (∀ q : Rat, ∃ (intPart : Nat) (frac : String),
        renderFixed6 q
          = (if q < 0 then "-" else "") ++ Nat.repr intPart ++ "." ++ frac
        ∧ frac.length = 6 ∧ frac.data.all Char.isDigit = true)
    ∧ plainClient.Gauge "test.gauge" 1 [] 1 = "test.gauge:1.000000|g"
    ∧ plainClient.Gauge "test.gauge" 1 [] (mkRat 999999 1000000)
        = "test.gauge:1.000000|g|@0.999999"
    ∧ plainClient.Gauge "test.gauge" 1 ["tagA"] 1 = "test.gauge:1.000000|g|#tagA"
    ∧ plainClient.Gauge "test.gauge" 1 ["tagA", "tagB"] 1
        = "test.gauge:1.000000|g|#tagA,tagB"
    ∧ plainClient.Gauge "test.gauge" 1 ["tagA"] (mkRat 999999 1000000)
        = "test.gauge:1.000000|g|@0.999999|#tagA"
    ∧ plainClient.Histogram "test.histogram" (mkRat 23 10) ["tagA"] 1
        = "test.histogram:2.300000|h|#tagA"
    ∧ plainClient.Set "test.set" "uuid" ["tagA"] 1 = "test.set:uuid|s|#tagA" := by
  refine ⟨?_, ?_, ?_, ?_, ?_, by decide, by decide, by decide, by decide,
    by decide, by decide, by decide⟩
  · intro ns gt name v tags rate
    by_cases h1 : rate = 1 <;> by_cases h2 : tags ++ gt = ([] : List String) <;>
      simp [formatMetric, composeName, composeTags, joinTags, h1, h2]
  · intro v; exact ⟨rfl, rfl, rfl, rfl⟩
  · intro i; rfl
  · intro s; exact ⟨rfl, rfl⟩
  · intro q
    unfold renderFixed6
    exact ⟨_, _, rfl, rfl, fracDigits6_all_isDigit _⟩

/-- Claim C5: the composed metric name is plain concatenation
`namespace ++ name` and the composed tag sequence is the call-site tags
followed by the global tags, order preserved, no deduplication: formatting
under a namespace and global tags coincides with formatting the concatenated
name and tag list under an empty configuration.  Validated against the
`dogstatsdTests` namespace and global-tag rows. -/
theorem c5_composition :
    (∀ ns name : String, composeName ns name = ns ++ name)
    ∧ (∀ ct gt : List String, composeTags ct gt = ct ++ gt)
    ∧ (∀ (ns : String) (gt : List String) (name : String) (v : MetricValue)
        (tags : List String) (rate : Rat),
        formatMetric ns gt name v tags rate
          = formatMetric "" [] (ns ++ name) v (tags ++ gt) rate)
    ∧ flubberClient.Set "test.set" "uuid" ["tagA"] 1
        = "flubber.test.set:uuid|s|#tagA"
    ∧ (Client.mk "" ["tagC"] 0).Set "test.set" "uuid" ["tagA"] 1
        = "test.set:uuid|s|#tagA,tagC" := by
  refine ⟨fun ns name => rfl, fun ct gt => rfl, ?_, by decide, by decide⟩
  intro ns gt name v tags rate
  simp [formatMetric, composeName, composeTags]

/-- Claim C6: a Count value renders as a signed decimal integer — an optional
leading minus sign followed by decimal digit characters only, hence no
decimal point.  Validated against the `dogstatsdTests` count rows. -/
theorem c6_count_rendering :
    (∀ i : Int, renderValue (.count i)
        = (if i < 0 then "-" else "") ++ Nat.repr i.natAbs)
    ∧ (∀ i : Int,
        ((renderInt i).data.all fun ch => ch.isDigit || ch == '-') = true)
    ∧ plainClient.Count "test.count" 1 ["tagA"] 1 = "test.count:1|c|#tagA"
    ∧ plainClient.Count "test.count" (-1) ["tagA"] 1
        = "test.count:-1|c|#tagA" := by
  refine ⟨fun i => rfl, ?_, by decide, by decide⟩
  intro i
  rw [renderInt, List.all_eq_true]
  intro c hc
  rw [String.data_append, List.mem_append] at hc
  rcases hc with hc | hc
  · by_cases h : i < 0
    · rw [if_pos h] at hc
      have : c = '-' := by simpa using hc
      simp [this]
    · rw [if_neg h] at hc
      simp at hc
  · simp [repr_isDigit _ c hc]

/-- On the raw-Event path the composed tags are the opts tags, then the bare
trimmed namespace, then the global tags. -/
theorem rawEventTags_eq (ns : String) (gt : List String) (opts : EventOpts) :
    composeEventTags ns gt opts false = opts.tags ++ [trimNamespace ns] ++ gt := by
  simp [composeEventTags]

/-- Claim C2: an event submission fails iff the byte length of its text
exceeds 8192; on failure the error message is exactly
`Event "<namespacedTitle>" payload is too big (more that 8KB), event
discarded`, and nothing is handed to the transport.  Validated against the
oversize check of `TestEvent`. -/
theorem c2_oversize_event :
    (∀ (ns : String) (gt : List String) (title text : String)
        (opts : EventOpts) (path : Bool),
      (∃ e, formatEvent ns gt title text opts path = Except.error e)
        ↔ text.utf8ByteSize > 8192)
    ∧ (∀ (ns : String) (gt : List String) (title text : String)
        (opts : EventOpts) (path : Bool),
      text.utf8ByteSize > 8192 →
        formatEvent ns gt title text opts path
          = Except.error ("Event \"" ++ (ns ++ title)
              ++ "\" payload is too big (more that 8KB), event discarded"))
    ∧ (∀ (c : Client) (title text : String) (opts : EventOpts),
        text.utf8ByteSize > 8192 →
          stepClient c (.event title text opts) = (c, []))
    ∧ (∀ (c : Client) (title text : String) (tags : List String),
        text.utf8ByteSize > 8192 →
          stepClient c (.error title text tags) = (c, []))
    ∧ flubberClient.Error "too long" oversizeText []
        = Except.error
            "Event \"flubber.too long\" payload is too big (more that 8KB), event discarded"
    ∧ stepClient flubberClient (.error "too long" oversizeText [])
        = (flubberClient, []) := by
  have hbig : oversizeText.utf8ByteSize > maxEventBytes := by
    rw [oversizeText_utf8ByteSize]; decide
  refine ⟨?_, ?_, ?_, ?_, ?_, ?_⟩
  · intro ns gt title text opts path
    constructor
    · rintro ⟨e, he⟩
      by_contra hb
      have hb2 : ¬ text.utf8ByteSize > maxEventBytes := hb
      simp only [formatEvent] at he
      rw [if_neg hb2] at he
      cases he
    · intro hb
      have hb2 : text.utf8ByteSize > maxEventBytes := hb
      refine ⟨oversizeMessage (ns ++ title), ?_⟩
      simp only [formatEvent]
      rw [if_pos hb2]
  · intro ns gt title text opts path hb
    have hb2 : text.utf8ByteSize > maxEventBytes := hb
    simp only [formatEvent]
    rw [if_pos hb2]
    rfl
  · intro c title text opts hb
    have hb2 : text.utf8ByteSize > maxEventBytes := hb
    simp only [stepClient, Client.Event, formatEvent]
    rw [if_pos hb2]
    rfl
  · intro c title text tags hb
    have hb2 : text.utf8ByteSize > maxEventBytes := hb
    simp only [stepClient, Client.Error, formatEvent]
    rw [if_pos hb2]
    rfl
  · simp only [Client.Error, formatEvent]
    rw [if_pos hbig]
    decide
  · simp only [stepClient, Client.Error, formatEvent]
    rw [if_pos hbig]
    rfl

/-- Claim C2 witness: a concrete oversize event is rejected and nothing is
handed to the transport. -/
theorem c2_oversize_event_witness :
    oversizeText.utf8ByteSize > 8192 ∧
      stepClient flubberClient (.error "another title" oversizeText ["x"])
        = (flubberClient, []) := by
  have h : oversizeText.utf8ByteSize > 8192 := by
    rw [oversizeText_utf8ByteSize]; decide
  exact ⟨h, c2_oversize_event.2.2.2.1 flubberClient "another title"
    oversizeText ["x"] h⟩

/-- Claim C3: each severity shortcut produces exactly the wire string of the
event formatter applied to opts with the shortcut's alert type, the trimmed
namespace as source type name and the call-site tags — taking the
severity-shortcut path, whose final tag sequence is the call-site tags
followed by the two synthesized tags `<nsTrimmed>-<alertType>` and
`<nsTrimmed>`, followed by the global tags.  Validated against the four
shortcut rows of `eventTests`. -/
theorem c3_severity_shortcuts :
    (∀ (c : Client) (title text : String) (tags : List String),
      c.Warning title text tags
        = formatEvent c.globalNamespace c.globalTags title text
            { alertType := some .warning,
              sourceTypeName := some (trimNamespace c.globalNamespace),
              tags := tags } true
      ∧ c.Error title text tags
        = formatEvent c.globalNamespace c.globalTags title text
            { alertType := some .error,
              sourceTypeName := some (trimNamespace c.globalNamespace),
              tags := tags } true
      ∧ c.Info title text tags
        = formatEvent c.globalNamespace c.globalTags title text
            { alertType := some .info,
              sourceTypeName := some (trimNamespace c.globalNamespace),
              tags := tags } true
      ∧ c.Success title text tags
        = formatEvent c.globalNamespace c.globalTags title text
            { alertType := some .success,
              sourceTypeName := some (trimNamespace c.globalNamespace),
              tags := tags } true)
    ∧ (∀ (ns : String) (gt : List String) (opts : EventOpts) (a : AlertType),
        composeEventTags ns gt { opts with alertType := some a } true
          = opts.tags
              ++ [trimNamespace ns ++ "-" ++ a.render, trimNamespace ns]
              ++ gt)
    ∧ flubberClient.Warning "title" "text" ["tag1", "tag2"]
        = .ok "_e\x7b13,4\x7d:flubber.title|text|t:warning|s:flubber|#tag1,tag2,flubber-warning,flubber"
    ∧ flubberClient.Error "Error!" "some error" ["tag3"]
        = .ok "_e\x7b14,10\x7d:flubber.Error!|some error|t:error|s:flubber|#tag3,flubber-error,flubber"
    ∧ flubberClient.Info "FYI" "note" []
        = .ok "_e\x7b11,4\x7d:flubber.FYI|note|t:info|s:flubber|#flubber-info,flubber"
    ∧ flubberClient.Success "Great News" "hurray" ["foo", "bar", "baz"]
        = .ok "_e\x7b18,6\x7d:flubber.Great News|hurray|t:success|s:flubber|#foo,bar,baz,flubber-success,flubber" := by
  refine ⟨?_, ?_, by decide, by decide, by decide, by decide⟩
  · intro c title text tags
    exact ⟨rfl, rfl, rfl, rfl⟩
  · intro ns gt opts a
    simp [composeEventTags]

/-- Claim C4: the two length fields of the event header count Unicode code
points of the namespaced title and of the text, while title and text appear
in the payload in their natural multi-byte encoding.  Validated against the
Unicode row of `eventTests`. -/
theorem c4_event_header_code_points :
    (∀ (ns : String) (gt : List String) (title text : String)
        (opts : EventOpts) (path : Bool),
      text.utf8ByteSize ≤ 8192 →
      ∃ rest, formatEvent ns gt title text opts path
        = Except.ok ("_e\x7b" ++ Nat.repr (ns ++ title).length ++ ","
            ++ Nat.repr text.length ++ "\x7d:" ++ (ns ++ title) ++ "|" ++ text
            ++ rest))
    ∧ (∀ s : String, s.length = s.data.length)
    ∧ "世界".length = 2 ∧ "世界".utf8ByteSize = 6
    ∧ "flubber.Unicode".length = 15
    ∧ flubberClient.Info "Unicode" "世界" []
        = .ok "_e\x7b15,2\x7d:flubber.Unicode|世界|t:info|s:flubber|#flubber-info,flubber" := by
  refine ⟨?_, fun s => rfl, by decide, by decide, by decide, by decide⟩
  intro ns gt title text opts path h
  have hng : ¬ text.utf8ByteSize > maxEventBytes := Nat.not_lt.mpr h
  refine ⟨eventFields opts
    ++ (if (composeEventTags ns gt opts path).isEmpty then ""
        else "|#" ++ joinTags (composeEventTags ns gt opts path)), ?_⟩
  simp only [formatEvent]
  rw [if_neg hng]
  simp [eventHeader, String.append_assoc]

/-- Claim C4 witness: the general header shape instantiated at the Unicode
event of `eventTests`. -/
theorem c4_event_header_code_points_witness :
    "世界".utf8ByteSize ≤ 8192 ∧
    ∃ rest, formatEvent "flubber." [] "Unicode" "世界"
        (shortcutOpts flubberClient .info []) true
      = Except.ok ("_e\x7b" ++ Nat.repr ("flubber." ++ "Unicode").length ++ ","
          ++ Nat.repr "世界".length ++ "\x7d:" ++ ("flubber." ++ "Unicode")
          ++ "|" ++ "世界" ++ rest) :=
  ⟨by decide, c4_event_header_code_points.1 "flubber." [] "Unicode" "世界"
    (shortcutOpts flubberClient .info []) true (by decide)⟩

/-- Claim C7: optional event fields render only when present, each prefixed
`|`, in the fixed order t, s, d, p, h, k, all before the tag segment; the
date renders as Unix epoch seconds and alert-type/priority names are
lowercase.  Validated against the full-option row of `eventTests`. -/
theorem c7_event_optional_fields :
    (∀ (ns : String) (gt : List String) (title text : String)
        (opts : EventOpts) (path : Bool),
      text.utf8ByteSize ≤ 8192 →
        formatEvent ns gt title text opts path
          = Except.ok (eventHeader (ns ++ title) text
              ++ (optField "t" (opts.alertType.map AlertType.render)
                ++ optField "s" opts.sourceTypeName
                ++ optField "d" (opts.dateHappened.map Int.repr)
                ++ optField "p" (opts.priority.map EventPriority.render)
                ++ optField "h" opts.host
                ++ optField "k" opts.aggregationKey)
              ++ (if (composeEventTags ns gt opts path).isEmpty then ""
                  else "|#" ++ joinTags (composeEventTags ns gt opts path))))
    ∧ (∀ l : String, optField l none = "")
    ∧ (∀ l v : String, optField l (some v) = "|" ++ l ++ ":" ++ v)
    ∧ (∀ d : Int, optField "d" ((some d).map Int.repr) = "|d:" ++ d.repr)
    ∧ AlertType.render .error = "error" ∧ AlertType.render .warning = "warning"
    ∧ AlertType.render .info = "info" ∧ AlertType.render .success = "success"
    ∧ EventPriority.render .low = "low"
    ∧ EventPriority.render .normal = "normal"
    ∧ EventPriority.render .high = "high"
    ∧ flubberClient.Event "custom title" "custom body" fullOpts
        = .ok "_e\x7b20,11\x7d:flubber.custom title|custom body|t:success|s:bar|d:1411080960|p:normal|h:node.example.com|k:foo|#flubber" := by
  refine ⟨?_, fun l => rfl, fun l v => rfl, fun d => rfl, rfl, rfl, rfl, rfl,
    rfl, rfl, rfl, by decide⟩
  intro ns gt title text opts path h
  have hng : ¬ text.utf8ByteSize > maxEventBytes := Nat.not_lt.mpr h
  simp only [formatEvent]
  rw [if_neg hng]
  rfl

/-- Claim C7 witness: the general field-order shape instantiated at the
full-option event of `eventTests`. -/
theorem c7_event_optional_fields_witness :
    "custom body".utf8ByteSize ≤ 8192 ∧
    formatEvent "flubber." [] "custom title" "custom body" fullOpts false
      = Except.ok (eventHeader ("flubber." ++ "custom title") "custom body"
          ++ (optField "t" (fullOpts.alertType.map AlertType.render)
            ++ optField "s" fullOpts.sourceTypeName
            ++ optField "d" (fullOpts.dateHappened.map Int.repr)
            ++ optField "p" (fullOpts.priority.map EventPriority.render)
            ++ optField "h" fullOpts.host
            ++ optField "k" fullOpts.aggregationKey)
          ++ (if (composeEventTags "flubber." [] fullOpts false).isEmpty then ""
              else "|#" ++ joinTags (composeEventTags "flubber." [] fullOpts false))) :=
  ⟨by decide, c7_event_optional_fields.1 "flubber." [] "custom title"
    "custom body" fullOpts false (by decide)⟩

/-- Claim C8: under a non-empty namespace, the raw Event entry point does not
synthesize the `<nsTrimmed>-<alertType>` tag but does append the bare trimmed
namespace tag after the opts tags, before the global tags.  Validated against
the full-option row of `eventTests`, whose wire string ends in `|#flubber`. -/
theorem c8_raw_event_namespace_tag :
    (∀ (ns : String) (gt : List String) (opts : EventOpts),
      ns ≠ "" →
        composeEventTags ns gt opts false
          = opts.tags ++ [trimNamespace ns] ++ gt)
    ∧ (∀ (ns : String) (gt : List String) (opts : EventOpts) (a : AlertType),
        ns ≠ "" →
        (trimNamespace ns ++ "-" ++ a.render) ∉ opts.tags →
        (trimNamespace ns ++ "-" ++ a.render) ∉ gt →
        (trimNamespace ns ++ "-" ++ a.render)
          ∉ composeEventTags ns gt opts false)
    ∧ composeEventTags "flubber." [] fullOpts false = ["flubber"]
    ∧ "flubber-success" ∉ composeEventTags "flubber." [] fullOpts false
    ∧ flubberClient.Event "custom title" "custom body" fullOpts
        = .ok "_e\x7b20,11\x7d:flubber.custom title|custom body|t:success|s:bar|d:1411080960|p:normal|h:node.example.com|k:foo|#flubber" := by
  refine ⟨?_, ?_, by decide, by decide, by decide⟩
  · intro ns gt opts hns
    exact rawEventTags_eq ns gt opts
  · intro ns gt opts a hns h1 h2 hmem
    rw [rawEventTags_eq] at hmem
    rcases List.mem_append.mp hmem with hmem | hmem
    · rcases List.mem_append.mp hmem with hmem | hmem
      · exact h1 hmem
      · have heq : trimNamespace ns ++ "-" ++ a.render = trimNamespace ns := by
          simpa using hmem
        have hlen := congrArg String.length heq
        simp only [String.length_append] at hlen
        have h1len : ("-" : String).length = 1 := rfl
        rw [h1len] at hlen
        have hrpos : 0 < a.render.length := by cases a <;> decide
        omega
    · exact h2 hmem

/-- Claim C8 witness: the synthesized severity tag is absent from a concrete
raw-Event tag composition. -/
theorem c8_raw_event_namespace_tag_witness :
    ("flubber." : String) ≠ "" ∧
    (trimNamespace "flubber." ++ "-" ++ AlertType.render .error)
      ∉ composeEventTags "flubber." ["gtag"]
          { alertType := some .error, tags := ["t1"] } false :=
  ⟨by decide, c8_raw_event_namespace_tag.2.1 "flubber." ["gtag"]
    { alertType := some .error, tags := ["t1"] } .error (by decide)
    (by decide) (by decide)⟩

/-- Running a concatenated operation sequence first runs the prefix, then the
suffix from the state the prefix produced, concatenating the outputs. -/
theorem runClient_append (c : Client) (ops1 ops2 : List ClientOp) :
    runClient c (ops1 ++ ops2)
      = ((runClient (runClient c ops1).1 ops2).1,
          (runClient c ops1).2 ++ (runClient (runClient c ops1).1 ops2).2) := by
  induction ops1 generalizing c with
  | nil => simp [runClient]
  | cons op ops ih => simp [runClient, ih, List.append_assoc]

/-- Claim C9: each setter replaces its field wholesale and immediately,
leaves the other field and the endpoint unchanged; no send operation mutates
the client state; and a run splits at any point, so a setter affects exactly
the operations issued after it. -/
theorem c9_config_setters :
    (∀ (c : Client) (p : String),
      (c.SetGlobalNamespace p).globalNamespace = p
      ∧ (c.SetGlobalNamespace p).globalTags = c.globalTags
      ∧ (c.SetGlobalNamespace p).endpoint = c.endpoint)
    ∧ (∀ (c : Client) (ts : List String),
      (c.SetGlobalTags ts).globalTags = ts
      ∧ (c.SetGlobalTags ts).globalNamespace = c.globalNamespace
      ∧ (c.SetGlobalTags ts).endpoint = c.endpoint)
    ∧ (∀ (c : Client) (op : ClientOp),
        (stepClient c op).1.endpoint = c.endpoint)
    ∧ (∀ (c : Client) (op : ClientOp),
        op.isConfig = false → (stepClient c op).1 = c)
    ∧ (∀ (c : Client) (p : String),
        stepClient c (.setGlobalNamespace p) = (c.SetGlobalNamespace p, []))
    ∧ (∀ (c : Client) (ts : List String),
        stepClient c (.setGlobalTags ts) = (c.SetGlobalTags ts, []))
    ∧ (∀ (c : Client) (ops1 ops2 : List ClientOp),
        runClient c (ops1 ++ ops2)
          = ((runClient (runClient c ops1).1 ops2).1,
              (runClient c ops1).2
                ++ (runClient (runClient c ops1).1 ops2).2)) := by
  refine ⟨fun c p => ⟨rfl, rfl, rfl⟩, fun c ts => ⟨rfl, rfl, rfl⟩, ?_, ?_,
    fun c p => rfl, fun c ts => rfl,
    fun c ops1 ops2 => runClient_append c ops1 ops2⟩
  · intro c op; cases op <;> rfl
  · intro c op h
    cases op <;> first
      | rfl
      | simp [ClientOp.isConfig] at h

/-- Claim C9 witness: a concrete send operation leaves the client state
unchanged. -/
theorem c9_config_setters_witness :
    (ClientOp.gauge "m" 1 [] 1).isConfig = false ∧
    (stepClient plainClient (.gauge "m" 1 [] 1)).1 = plainClient :=
  ⟨rfl, c9_config_setters.2.2.2.1 plainClient (.gauge "m" 1 [] 1) rfl⟩

/-- Claim C10: every successful send hands exactly one datagram to the
transport, byte-for-byte the formatted wire string with no terminator
appended.  Validated against the raw payloads `serverRead` compares in
`TestClient` and `TestEvent`. -/
theorem c10_single_datagram :
    (∀ (c : Client) (n : String) (v : Rat) (tags : List String) (r : Rat),
      (stepClient c (.gauge n v tags r)).2
        = [formatMetric c.globalNamespace c.globalTags n (.gauge v) tags r])
    ∧ (∀ (c : Client) (n : String) (v : Int) (tags : List String) (r : Rat),
      (stepClient c (.count n v tags r)).2
        = [formatMetric c.globalNamespace c.globalTags n (.count v) tags r])
    ∧ (∀ (c : Client) (n : String) (v : Rat) (tags : List String) (r : Rat),
      (stepClient c (.histogram n v tags r)).2
        = [formatMetric c.globalNamespace c.globalTags n (.histogram v) tags r])
    ∧ (∀ (c : Client) (n v : String) (tags : List String) (r : Rat),
      (stepClient c (.set n v tags r)).2
        = [formatMetric c.globalNamespace c.globalTags n (.set v) tags r])
    ∧ (∀ (c : Client) (t x : String) (o : EventOpts) (s : String),
      c.Event t x o = .ok s → (stepClient c (.event t x o)).2 = [s])
    ∧ (∀ (c : Client) (t x : String) (tags : List String) (s : String),
      c.Warning t x tags = .ok s → (stepClient c (.warning t x tags)).2 = [s])
    ∧ (stepClient plainClient (.gauge "test.gauge" 1 [] 1)).2
        = ["test.gauge:1.000000|g"]
    ∧ "test.gauge:1.000000|g".data.getLast? = some 'g'
    ∧ (stepClient flubberClient (.warning "title" "text" ["tag1", "tag2"])).2
        = ["_e\x7b13,4\x7d:flubber.title|text|t:warning|s:flubber|#tag1,tag2,flubber-warning,flubber"]
    ∧ "_e\x7b13,4\x7d:flubber.title|text|t:warning|s:flubber|#tag1,tag2,flubber-warning,flubber".data.getLast?
        = some 'r' := by
  refine ⟨fun c n v tags r => rfl, fun c n v tags r => rfl,
    fun c n v tags r => rfl, fun c n v tags r => rfl, ?_, ?_,
    by decide, by decide, by decide, by decide⟩
  · intro c t x o s h
    show datagrams (c.Event t x o) = [s]
    rw [h]
    rfl
  · intro c t x tags s h
    show datagrams (c.Warning t x tags) = [s]
    rw [h]
    rfl

/-- Claim C10 witness: a concrete successful event send emits exactly its
formatted payload. -/
theorem c10_single_datagram_witness :
    flubberClient.Warning "title" "text" ["tag1", "tag2"]
        = .ok "_e\x7b13,4\x7d:flubber.title|text|t:warning|s:flubber|#tag1,tag2,flubber-warning,flubber" ∧
    (stepClient flubberClient (.warning "title" "text" ["tag1", "tag2"])).2
      = ["_e\x7b13,4\x7d:flubber.title|text|t:warning|s:flubber|#tag1,tag2,flubber-warning,flubber"] := by
  have h : flubberClient.Warning "title" "text" ["tag1", "tag2"]
      = .ok "_e\x7b13,4\x7d:flubber.title|text|t:warning|s:flubber|#tag1,tag2,flubber-warning,flubber" := by
    decide
  exact ⟨h, c10_single_datagram.2.2.2.2.2.1 flubberClient "title" "text"
    ["tag1", "tag2"] _ h⟩
